import Mathlib

/-!
Shallow embedding of the asynchronous job callback coordination subsystem of
the `upscaler` repository:

* `src/lambdas/runpod_webhook_handler/index.py` — the webhook ingestion
  handler (`handler`, `get_callback_record`, `update_callback_completed`);
* `src/lambdas/submit_runpod_job/index.py` — the job submission coordinator
  (`lambda_handler`, `submit_runpod_job`, `store_callback_mapping`,
  `generate_callback_token`).

The DynamoDB correlation store is modelled as an association list from
callback token to record; DynamoDB attributes that may be absent are
`Option`s.  External effects (the Step Functions resume call, the RunPod
HTTP submission) are driven by explicit outcome parameters, and each
handler returns, besides its HTTP response, the list of workflow-resume
deliveries and the list of store writes it performed, so that claims about
"no workflow call" / "no store write" are directly statable.
-/

namespace Upscaler

/-- An opaque JSON payload, as passed through untouched by the handlers
(the RunPod `output` field, the job `params`).  `.empty` stands for the
Python default `{}`. -/
inductive JVal where
  | empty : JVal
  | blob (s : String) : JVal
deriving DecidableEq

/-- The `result` map written by `update_callback_completed`; its three shapes
are the three dict literals appearing at the call sites in
`runpod_webhook_handler/index.py`. -/
inductive ResultVal where
  | success (job_id runpod_status : String) (output : JVal) : ResultVal
  | failed (job_id runpod_status error : String) : ResultVal
  | tokenError (error job_id : String) : ResultVal
deriving DecidableEq

/-- A DynamoDB correlation record (schema in the module docstring of
`runpod_webhook_handler/index.py`).  Every attribute may be absent. -/
structure Record where
  task_token : Option String
  job_id : Option String
  exec_id : Option String
  segment_filename : Option String
  status : Option String
  created_at : Option String
  completed_at : Option String
  result : Option ResultVal
deriving DecidableEq

/-- The correlation store: association list keyed by callback token. -/
def Store := List (String × Record)
deriving DecidableEq

/-- `get_callback_record` / `table.get_item`: first binding of the key. -/
def get_callback_record (store : Store) (callback_token : String) : Option Record :=
  match store with
  | [] => none
  | (k, r) :: rest =>
      if k = callback_token then some r else get_callback_record rest callback_token

/-- The record mutation performed by `update_callback_completed`: set
`status` and `completed_at`; set `result` only when a (truthy) result was
supplied, otherwise keep the old one. -/
def applyCompleted (now status : String) (result : Option ResultVal) (r : Record) : Record :=
  { r with
    status := some status
    completed_at := some now
    result := match result with
      | none => r.result
      | some v => some v }

/-- `update_callback_completed` / `table.update_item` on the store: rewrite
the first binding of the key in place (the handler only updates keys it has
just looked up). -/
def update_callback_completed (now : String) (store : Store)
    (callback_token status : String) (result : Option ResultVal) : Store :=
  match store with
  | [] => []
  | (k, r) :: rest =>
      if k = callback_token then (k, applyCompleted now status result r) :: rest
      else (k, r) :: update_callback_completed now rest callback_token status result

/-- `status.replace("_", "")` with an empty replacement: drop every
underscore. -/
def removeUnderscores (s : String) : String :=
  String.mk (s.data.filter (fun c => c != '_'))

/-- The parsed webhook request body `{id, status, output?, error?}`. -/
structure WebhookBody where
  id : Option String
  status : Option String
  output : Option JVal
  error : Option String
deriving DecidableEq

/-- Outcome of the Step Functions `send_task_success` / `send_task_failure`
call, an external effect: accepted, rejected with `TaskTimedOut`, rejected
with `InvalidToken`, or some other exception (caught by the handler's
top-level `except`). -/
inductive SfnOutcome where
  | ok : SfnOutcome
  | taskTimedOut : SfnOutcome
  | invalidToken : SfnOutcome
  | otherError (msg : String) : SfnOutcome
deriving DecidableEq

/-- The `output` dict passed to `send_task_success`. -/
structure SuccessOutput where
  job_id : String
  status : String
  callback_token : String
  exec_id : Option String
  segment_filename : Option String
  output : JVal
deriving DecidableEq

/-- A workflow-resume delivery accepted by the workflow engine. -/
inductive ResumeCall where
  | taskSuccess (taskToken : String) (output : SuccessOutput) : ResumeCall
  | taskFailure (taskToken error cause : String) : ResumeCall
deriving DecidableEq

/-- The JSON response bodies built by `handler`. -/
inductive RespBody where
  | errorMsg (error : String) : RespBody
  | alreadyProcessed (completed_at : Option String) : RespBody
  | ignored (status : String) : RespBody
  | processed (job_id status : String) : RespBody
deriving DecidableEq

/-- An HTTP response `{statusCode, body}`. -/
structure Response where
  statusCode : Nat
  body : RespBody
deriving DecidableEq

/-- One `update_item` write against the correlation store. -/
structure StoreWrite where
  callback_token : String
  status : String
  result : Option ResultVal
deriving DecidableEq

/-- Result of one `handler` invocation: the HTTP response, the accepted
workflow-resume deliveries, the store writes, and the store afterwards. -/
structure HandlerOut where
  response : Response
  resumes : List ResumeCall
  writes : List StoreWrite
  store : Store
deriving DecidableEq

/-- `record.get("status") in ("COMPLETED", "FAILED")`. -/
def isTerminal (s : Option String) : Prop :=
  s = some "COMPLETED" ∨ s = some "FAILED"

instance (s : Option String) : Decidable (isTerminal s) := by
  unfold isTerminal; infer_instance

/-- `handler` of `runpod_webhook_handler/index.py`.  `now` is the timestamp
`update_callback_completed` stamps into `completed_at`; `sfn` is the outcome
of the (at most one) Step Functions resume call; `callback_token` is
`event.pathParameters.callback_token` (`none` when absent, and the empty
string is falsy like in Python); `body` is the parsed request body. -/
def handler (now : String) (sfn : SfnOutcome) (callback_token : Option String)
    (body : WebhookBody) (store : Store) : HandlerOut :=
  let tok := callback_token.getD ""
  if tok = "" then
    { response := ⟨400, .errorMsg "Missing callback_token in path"⟩
      resumes := [], writes := [], store := store }
  else
    let job_id := body.id.getD "unknown"
    let status := body.status.getD "UNKNOWN"
    match get_callback_record store tok with
    | none =>
        { response := ⟨404, .errorMsg "Callback token not found"⟩
          resumes := [], writes := [], store := store }
    | some record =>
        if isTerminal record.status then
          { response := ⟨200, .alreadyProcessed record.completed_at⟩
            resumes := [], writes := [], store := store }
        else
          let task_token := record.task_token.getD ""
          if task_token = "" then
            { response := ⟨500, .errorMsg "Missing task_token in record"⟩
              resumes := [], writes := [], store := store }
          else if status = "COMPLETED" then
            let output : SuccessOutput :=
              { job_id := job_id, status := status, callback_token := tok
                exec_id := record.exec_id
                segment_filename := record.segment_filename
                output := body.output.getD .empty }
            match sfn with
            | .ok =>
                let w : StoreWrite :=
                  ⟨tok, "COMPLETED", some (.success job_id status (body.output.getD .empty))⟩
                { response := ⟨200, .processed job_id status⟩
                  resumes := [.taskSuccess task_token output]
                  writes := [w]
                  store := update_callback_completed now store tok "COMPLETED" w.result }
            | .taskTimedOut =>
                let w : StoreWrite :=
                  ⟨tok, "COMPLETED", some (.tokenError "Task token expired" job_id)⟩
                { response := ⟨410, .errorMsg "Task token expired"⟩
                  resumes := [], writes := [w]
                  store := update_callback_completed now store tok "COMPLETED" w.result }
            | .invalidToken =>
                let w : StoreWrite :=
                  ⟨tok, "FAILED", some (.tokenError "Invalid task token" job_id)⟩
                { response := ⟨400, .errorMsg "Invalid task token"⟩
                  resumes := [], writes := [w]
                  store := update_callback_completed now store tok "FAILED" w.result }
            | .otherError msg =>
                { response := ⟨500, .errorMsg msg⟩
                  resumes := [], writes := [], store := store }
          else if status = "FAILED" ∨ status = "CANCELLED" ∨ status = "TIMED_OUT" then
            let error_message := body.error.getD ("RunPod job " ++ status)
            let error_code := "RunPod" ++ removeUnderscores status
            match sfn with
            | .ok =>
                let w : StoreWrite :=
                  ⟨tok, "FAILED", some (.failed job_id status error_message)⟩
                { response := ⟨200, .processed job_id status⟩
                  resumes := [.taskFailure task_token error_code error_message]
                  writes := [w]
                  store := update_callback_completed now store tok "FAILED" w.result }
            | .taskTimedOut =>
                let w : StoreWrite :=
                  ⟨tok, "FAILED", some (.tokenError "Task token expired" job_id)⟩
                { response := ⟨410, .errorMsg "Task token expired"⟩
                  resumes := [], writes := [w]
                  store := update_callback_completed now store tok "FAILED" w.result }
            | .invalidToken =>
                let w : StoreWrite :=
                  ⟨tok, "FAILED", some (.tokenError "Invalid task token" job_id)⟩
                { response := ⟨400, .errorMsg "Invalid task token"⟩
                  resumes := [], writes := [w]
                  store := update_callback_completed now store tok "FAILED" w.result }
            | .otherError msg =>
                { response := ⟨500, .errorMsg msg⟩
                  resumes := [], writes := [], store := store }
          else
            { response := ⟨200, .ignored status⟩
              resumes := [], writes := [], store := store }

/-! ### Job submission coordinator (`submit_runpod_job/index.py`) -/

/-- One hex digit, as produced by Python's `secrets.token_hex`. -/
def hexDigit (n : Nat) : Char :=
  if n < 10 then Char.ofNat (48 + n) else Char.ofNat (87 + n)

/-- Two lowercase hex digits of one byte. -/
def byteHex (b : Nat) : String :=
  String.mk [hexDigit (b / 16), hexDigit (b % 16)]

/-- `secrets.token_hex` over an explicit list of random bytes. -/
def token_hex : List Nat → String
  | [] => ""
  | b :: bs => byteHex b ++ token_hex bs

/-- `generate_callback_token`: `secrets.token_hex(32)`, the 32 random bytes
made explicit as a parameter. -/
def generate_callback_token (rnd : List Nat) : String :=
  token_hex rnd

/-- Outcome of the `requests.post` to the RunPod run endpoint: a 2xx
response whose parsed body has the given `id` field, or a
`requests.exceptions.RequestException` (network error, or a non-2xx
response via `raise_for_status`). -/
inductive HttpOutcome where
  | response (id : Option String) : HttpOutcome
  | requestError (msg : String) : HttpOutcome
deriving DecidableEq

/-- `submit_runpod_job` of `submit_runpod_job/index.py`: returns the RunPod
job id, or the message of the `RuntimeError` it raises. -/
def submit_runpod_job (http : HttpOutcome) : Except String String :=
  match http with
  | .requestError msg => .error ("Failed to submit RunPod job: " ++ msg)
  | .response id =>
      match id with
      | none => .error "No job ID in RunPod response"
      | some jid => if jid = "" then .error "No job ID in RunPod response" else .ok jid

/-- The request payload sent to the RunPod run endpoint. -/
structure RunpodRequest where
  input_presigned_url : String
  output_presigned_url : String
  webhook_url : String
  endpoint : String
  params : JVal
deriving DecidableEq

/-- The DynamoDB item written by `store_callback_mapping`.  Timestamps are
epoch seconds (the code stores ISO renderings of the same instants plus the
numeric `ttl`). -/
structure Item where
  callback_token : String
  task_token : String
  job_id : String
  exec_id : String
  segment_filename : String
  status : String
  created_at : Nat
  expires_at : Nat
  ttl : Nat
deriving DecidableEq

/-- `store_callback_mapping`: build the `PENDING` correlation item with
expiry `ttl_hours` after `now`. -/
def store_callback_mapping (now : Nat) (callback_token task_token exec_id
    segment_filename job_id : String) (ttl_hours : Nat) : Item :=
  { callback_token := callback_token
    task_token := task_token
    job_id := job_id
    exec_id := exec_id
    segment_filename := segment_filename
    status := "PENDING"
    created_at := now
    expires_at := now + ttl_hours * 3600
    ttl := now + ttl_hours * 3600 }

/-- `event.segment`. -/
structure Segment where
  filename : Option String
deriving DecidableEq

/-- `event.runpod`. -/
structure RunpodCfg where
  run_endpoint : Option String
deriving DecidableEq

/-- The Step Functions input event of `lambda_handler`. -/
structure SubmitEvent where
  task_token : Option String
  exec_id : Option String
  segment : Option Segment
  input_presigned_url : Option String
  output_presigned_url : Option String
  runpod : Option RunpodCfg
  params : Option JVal
deriving DecidableEq

/-- The errors `lambda_handler` raises: `ValueError` for a missing required
field (carrying the field name part of the message), or the re-raised
`RuntimeError` from `submit_runpod_job`. -/
inductive SubmitError where
  | missingField (fields : String) : SubmitError
  | submitFailed (msg : String) : SubmitError
deriving DecidableEq

/-- The success payload returned to Step Functions. -/
structure SubmitResponse where
  callback_token : String
  job_id : String
  webhook_url : String
  segment_filename : String
  exec_id : String
deriving DecidableEq

instance {ε α : Type} [DecidableEq ε] [DecidableEq α] : DecidableEq (Except ε α)
  | .error a, .error b =>
      if h : a = b then isTrue (by rw [h]) else isFalse (by simpa using h)
  | .error _, .ok _ => isFalse (by simp)
  | .ok _, .error _ => isFalse (by simp)
  | .ok a, .ok b =>
      if h : a = b then isTrue (by rw [h]) else isFalse (by simpa using h)

/-- Result of one `lambda_handler` invocation: outcome, callback tokens
issued, RunPod submission requests sent, and correlation items written. -/
structure SubmitOut where
  result : Except SubmitError SubmitResponse
  tokensIssued : List String
  submissions : List RunpodRequest
  puts : List Item
deriving DecidableEq

/-- `lambda_handler` of `submit_runpod_job/index.py`.  `now` is the epoch
time; `rnd` the random bytes behind `generate_callback_token`;
`webhookBase` the `WEBHOOK_BASE_URL` environment value (the code joins it
with the token via `urljoin`, modelled as appending the token to the
directory-style base); `http` the outcome of the RunPod POST. -/
def lambda_handler (now : Nat) (rnd : List Nat) (webhookBase : String)
    (http : HttpOutcome) (event : SubmitEvent) : SubmitOut :=
  let task_token := event.task_token.getD ""
  if task_token = "" then
    ⟨.error (.missingField "task_token"), [], [], []⟩
  else
    let exec_id := event.exec_id.getD ""
    if exec_id = "" then
      ⟨.error (.missingField "exec_id"), [], [], []⟩
    else
      let segment := event.segment.getD ⟨none⟩
      let segment_filename := segment.filename.getD ""
      if segment_filename = "" then
        ⟨.error (.missingField "segment.filename"), [], [], []⟩
      else
        let input_presigned_url := event.input_presigned_url.getD ""
        let output_presigned_url := event.output_presigned_url.getD ""
        if input_presigned_url = "" ∨ output_presigned_url = "" then
          ⟨.error (.missingField "input_presigned_url, output_presigned_url"), [], [], []⟩
        else
          let runpod_endpoint_url := (event.runpod.getD ⟨none⟩).run_endpoint.getD ""
          if runpod_endpoint_url = "" then
            ⟨.error (.missingField "runpod.run_endpoint"), [], [], []⟩
          else
            let params := event.params.getD .empty
            let callback_token := generate_callback_token rnd
            let webhook_url := webhookBase ++ callback_token
            let req : RunpodRequest :=
              ⟨input_presigned_url, output_presigned_url, webhook_url,
               runpod_endpoint_url, params⟩
            match submit_runpod_job http with
            | .error msg =>
                ⟨.error (.submitFailed msg), [callback_token], [req], []⟩
            | .ok job_id =>
                let item := store_callback_mapping now callback_token task_token
                  exec_id segment_filename job_id 168
                ⟨.ok ⟨callback_token, job_id, webhook_url, segment_filename, exec_id⟩,
                 [callback_token], [req], [item]⟩

/-! ### Store lemmas -/

theorem get_update_self (now : String) (store : Store) (k status : String)
    (res : Option ResultVal) (r : Record)
    (h : get_callback_record store k = some r) :
    get_callback_record (update_callback_completed now store k status res) k =
      some (applyCompleted now status res r) := by
  induction store with
  | nil => simp [get_callback_record] at h
  | cons p rest ih =>
      obtain ⟨k', r'⟩ := p
      by_cases hk : k' = k
      · subst hk
        simp [get_callback_record, update_callback_completed] at h ⊢
        simp [h]
      · simp [get_callback_record, update_callback_completed, hk] at h ⊢
        exact ih h

theorem get_update_ne (now : String) (store : Store) (k k' status : String)
    (res : Option ResultVal) (h : k' ≠ k) :
    get_callback_record (update_callback_completed now store k status res) k' =
      get_callback_record store k' := by
  induction store with
  | nil => simp [update_callback_completed]
  | cons p rest ih =>
      obtain ⟨k0, r0⟩ := p
      by_cases hk : k0 = k
      · subst hk
        simp [update_callback_completed, get_callback_record, Ne.symm h]
      · by_cases h2 : k0 = k'
        · simp [update_callback_completed, get_callback_record, hk, h2, h]
        · simp [update_callback_completed, get_callback_record, hk, h2, ih]

theorem isTerminal_applyCompleted (now status : String) (res : Option ResultVal)
    (r : Record) (h : status = "COMPLETED" ∨ status = "FAILED") :
    isTerminal (applyCompleted now status res r).status := by
  cases h <;> simp [applyCompleted, isTerminal, *]

/-- Case summary of one `handler` invocation: either it leaves the store
untouched and resumes nothing, or the looked-up record was non-terminal and
the handler performs exactly one terminal-status update at its own token,
resuming the workflow at most once. -/
theorem handler_cases (now : String) (sfn : SfnOutcome) (cbtok : Option String)
    (body : WebhookBody) (store : Store) :
    ((handler now sfn cbtok body store).store = store ∧
      (handler now sfn cbtok body store).resumes = []) ∨
    (∃ st res r, (st = "COMPLETED" ∨ st = "FAILED") ∧
      get_callback_record store (cbtok.getD "") = some r ∧
      ¬ isTerminal r.status ∧
      (handler now sfn cbtok body store).resumes.length ≤ 1 ∧
      (handler now sfn cbtok body store).store =
        update_callback_completed now store (cbtok.getD "") st res) := by
  by_cases h1 : cbtok.getD "" = ""
  · left; simp [handler, h1]
  · cases hrec : get_callback_record store (cbtok.getD "") with
    | none => left; simp [handler, h1, hrec]
    | some r =>
        by_cases hterm : isTerminal r.status
        · left; simp [handler, h1, hrec, hterm]
        · by_cases htt : r.task_token.getD "" = ""
          · left; simp [handler, h1, hrec, hterm, htt]
          · by_cases hC : body.status.getD "UNKNOWN" = "COMPLETED"
            · cases sfn with
              | ok =>
                  right
                  refine ⟨"COMPLETED",
                    some (.success (body.id.getD "unknown") (body.status.getD "UNKNOWN")
                      (body.output.getD .empty)), r, Or.inl rfl, rfl, hterm, ?_, ?_⟩ <;>
                    simp [handler, h1, hrec, hterm, htt, hC]
              | taskTimedOut =>
                  right
                  refine ⟨"COMPLETED",
                    some (.tokenError "Task token expired" (body.id.getD "unknown")),
                    r, Or.inl rfl, rfl, hterm, ?_, ?_⟩ <;>
                    simp [handler, h1, hrec, hterm, htt, hC]
              | invalidToken =>
                  right
                  refine ⟨"FAILED",
                    some (.tokenError "Invalid task token" (body.id.getD "unknown")),
                    r, Or.inr rfl, rfl, hterm, ?_, ?_⟩ <;>
                    simp [handler, h1, hrec, hterm, htt, hC]
              | otherError msg =>
                  left; simp [handler, h1, hrec, hterm, htt, hC]
            · by_cases hF : body.status.getD "UNKNOWN" = "FAILED" ∨
                  body.status.getD "UNKNOWN" = "CANCELLED" ∨
                  body.status.getD "UNKNOWN" = "TIMED_OUT"
              · rcases hF with hf | hf | hf <;>
                  cases sfn with
                  | ok =>
                      right
                      refine ⟨"FAILED",
                        some (.failed (body.id.getD "unknown") (body.status.getD "UNKNOWN")
                          (body.error.getD ("RunPod job " ++ body.status.getD "UNKNOWN"))),
                        r, Or.inr rfl, rfl, hterm, ?_, ?_⟩ <;>
                        simp [handler, h1, hrec, hterm, htt, hC, hf]
                  | taskTimedOut =>
                      right
                      refine ⟨"FAILED",
                        some (.tokenError "Task token expired" (body.id.getD "unknown")),
                        r, Or.inr rfl, rfl, hterm, ?_, ?_⟩ <;>
                        simp [handler, h1, hrec, hterm, htt, hC, hf]
                  | invalidToken =>
                      right
                      refine ⟨"FAILED",
                        some (.tokenError "Invalid task token" (body.id.getD "unknown")),
                        r, Or.inr rfl, rfl, hterm, ?_, ?_⟩ <;>
                        simp [handler, h1, hrec, hterm, htt, hC, hf]
                  | otherError msg =>
                      left; simp [handler, h1, hrec, hterm, htt, hC, hf]
              · left; simp [handler, h1, hrec, hterm, htt, hC, hF]

/-- Every single invocation delivers at most one workflow resume. -/
theorem handler_resumes_le_one (now : String) (sfn : SfnOutcome)
    (cbtok : Option String) (body : WebhookBody) (store : Store) :
    (handler now sfn cbtok body store).resumes.length ≤ 1 := by
  rcases handler_cases now sfn cbtok body store with ⟨_, h⟩ | ⟨_, _, _, _, _, _, h, _⟩
  · simp [h]
  · exact h

/-! ### Concrete fixtures used to instantiate the theorems -/

/-- A pending correlation record. -/
def recPending : Record :=
  { task_token := some "tt1", job_id := some "j1", exec_id := some "e1"
    segment_filename := some "seg_0000.mp4", status := some "PENDING"
    created_at := some "2024-01-01T00:00:00", completed_at := none, result := none }

/-- A record already completed. -/
def recDone : Record :=
  { recPending with status := some "COMPLETED", completed_at := some "2024-01-01T01:00:00" }

/-- A pending record whose `task_token` attribute is absent. -/
def recNoTaskToken : Record :=
  { recPending with task_token := none }

/-- A store holding one pending record. -/
def storePending : Store := [("tok1", recPending)]

/-- A store holding one completed record. -/
def storeDone : Store := [("tok1", recDone)]

/-- A store holding one pending record without a task token. -/
def storeNoTaskToken : Store := [("tok1", recNoTaskToken)]

/-- A RunPod success webhook body. -/
def bodyCompleted : WebhookBody :=
  { id := some "j1", status := some "COMPLETED", output := some (.blob "s3-out"), error := none }

/-- A RunPod failure webhook body. -/
def bodyFailed : WebhookBody :=
  { id := some "j1", status := some "FAILED", output := none, error := some "GPU OOM" }

/-! ### Claim theorems for the webhook handler -/

/-- Claim C1: a webhook call whose correlation record is already terminal
(`COMPLETED` or `FAILED`) makes no workflow-resume call, performs no store
write, leaves the store unchanged and returns 200 with the record's prior
`completed_at`; and delivering the same webhook payload twice against the
same token (under any resume outcomes and timestamps) resumes the workflow
at most once in total. -/
theorem webhook_terminal_noop_and_idempotent :
    (∀ (now : String) (sfn : SfnOutcome) (cbtok : Option String) (body : WebhookBody)
        (store : Store) (r : Record),
        cbtok.getD "" ≠ "" →
        get_callback_record store (cbtok.getD "") = some r →
        isTerminal r.status →
        handler now sfn cbtok body store =
          ⟨⟨200, .alreadyProcessed r.completed_at⟩, [], [], store⟩) ∧
    (∀ (now₁ now₂ : String) (sfn₁ sfn₂ : SfnOutcome) (cbtok : Option String)
        (body : WebhookBody) (store : Store),
        (handler now₁ sfn₁ cbtok body store).resumes.length +
          (handler now₂ sfn₂ cbtok body
            (handler now₁ sfn₁ cbtok body store).store).resumes.length ≤ 1) := by
  constructor
  · intro now sfn cbtok body store r hne hrec hterm
    simp [handler, hne, hrec, hterm]
  · intro now₁ now₂ sfn₁ sfn₂ cbtok body store
    rcases handler_cases now₁ sfn₁ cbtok body store with
      ⟨hs, hr⟩ | ⟨st, res, r, hst, hrec, hterm, hlen, hs⟩
    · rw [hr]
      simpa using handler_resumes_le_one now₂ sfn₂ cbtok body _
    · have hget : get_callback_record (handler now₁ sfn₁ cbtok body store).store
          (cbtok.getD "") = some (applyCompleted now₁ st res r) := by
        rw [hs]; exact get_update_self now₁ store _ st res r hrec
      have h2 : (handler now₂ sfn₂ cbtok body
          (handler now₁ sfn₁ cbtok body store).store).resumes = [] := by
        rcases handler_cases now₂ sfn₂ cbtok body
            (handler now₁ sfn₁ cbtok body store).store with
          ⟨_, hr2⟩ | ⟨st2, res2, r2, hst2, hrec2, hterm2, _, _⟩
        · exact hr2
        · rw [hget] at hrec2
          have hr2eq := Option.some.inj hrec2
          rw [← hr2eq] at hterm2
          exact absurd (isTerminal_applyCompleted now₁ st res r hst) hterm2
      rw [h2]
      simpa using hlen

/-- Concrete instantiation of the C1 theorem: a completed record answers 200
with its stored `completed_at` and no effects, and two identical deliveries
against a pending record resume at most once. -/
theorem webhook_terminal_noop_and_idempotent_witness :
    handler "t2" .ok (some "tok1") bodyCompleted storeDone =
      ⟨⟨200, .alreadyProcessed (some "2024-01-01T01:00:00")⟩, [], [], storeDone⟩ ∧
    (handler "t1" .ok (some "tok1") bodyCompleted storePending).resumes.length +
      (handler "t2" .ok (some "tok1") bodyCompleted
        (handler "t1" .ok (some "tok1") bodyCompleted storePending).store).resumes.length ≤ 1 :=
  ⟨webhook_terminal_noop_and_idempotent.1 "t2" .ok (some "tok1") bodyCompleted
      storeDone recDone (by decide) (by decide) (by decide),
   webhook_terminal_noop_and_idempotent.2 "t1" "t2" .ok .ok (some "tok1")
      bodyCompleted storePending⟩

/-- Claim C2: against a pending record, with external status `COMPLETED` and
a resume call the engine accepts, the handler resumes with success exactly
once — the output carrying the job id, external status, callback token, the
record's `exec_id` and `segment_filename`, and the external output payload —
performs exactly one store write turning the record `COMPLETED` with a result
holding the job id and output, and responds 200. -/
theorem webhook_pending_completed_success :
    ∀ (now : String) (cbtok : Option String) (body : WebhookBody)
      (store : Store) (r : Record),
      cbtok.getD "" ≠ "" →
      get_callback_record store (cbtok.getD "") = some r →
      ¬ isTerminal r.status →
      r.task_token.getD "" ≠ "" →
      body.status = some "COMPLETED" →
      (handler now .ok cbtok body store).resumes =
        [.taskSuccess (r.task_token.getD "")
          ⟨body.id.getD "unknown", "COMPLETED", cbtok.getD "", r.exec_id,
           r.segment_filename, body.output.getD .empty⟩] ∧
      (handler now .ok cbtok body store).writes =
        [⟨cbtok.getD "", "COMPLETED",
          some (.success (body.id.getD "unknown") "COMPLETED" (body.output.getD .empty))⟩] ∧
      get_callback_record (handler now .ok cbtok body store).store (cbtok.getD "") =
        some (applyCompleted now "COMPLETED"
          (some (.success (body.id.getD "unknown") "COMPLETED" (body.output.getD .empty))) r) ∧
      (applyCompleted now "COMPLETED"
        (some (.success (body.id.getD "unknown") "COMPLETED" (body.output.getD .empty))) r).status
        = some "COMPLETED" ∧
      (handler now .ok cbtok body store).response =
        ⟨200, .processed (body.id.getD "unknown") "COMPLETED"⟩ := by
  intro now cbtok body store r hne hrec hterm htt hstat
  have hs : (handler now .ok cbtok body store).store =
      update_callback_completed now store (cbtok.getD "") "COMPLETED"
        (some (.success (body.id.getD "unknown") "COMPLETED" (body.output.getD .empty))) := by
    simp [handler, hne, hrec, hterm, htt, hstat]
  refine ⟨by simp [handler, hne, hrec, hterm, htt, hstat],
          by simp [handler, hne, hrec, hterm, htt, hstat],
          ?_, rfl,
          by simp [handler, hne, hrec, hterm, htt, hstat]⟩
  rw [hs]
  exact get_update_self now store _ "COMPLETED" _ r hrec

/-- Concrete instantiation of the C2 theorem on the pending fixture. -/
theorem webhook_pending_completed_success_witness :
    (handler "t1" .ok (some "tok1") bodyCompleted storePending).resumes =
      [.taskSuccess "tt1"
        ⟨"j1", "COMPLETED", "tok1", some "e1", some "seg_0000.mp4", .blob "s3-out"⟩] ∧
    (handler "t1" .ok (some "tok1") bodyCompleted storePending).response =
      ⟨200, .processed "j1" "COMPLETED"⟩ := by
  have h := webhook_pending_completed_success "t1" (some "tok1") bodyCompleted
    storePending recPending (by decide) (by decide) (by decide) (by decide) (by decide)
  exact ⟨h.1, h.2.2.2.2⟩

/-- Claim C3: against a pending record, with external status `FAILED`,
`CANCELLED` or `TIMED_OUT` and a resume call the engine accepts, the handler
resumes with failure exactly once — the error code derived from the status
(`RunPod` + status without underscores) and the cause equal to the external
error message, or the synthesized `RunPod job <status>` default when absent —
turns the record `FAILED` with a result holding the error, and responds 200. -/
theorem webhook_pending_failure_resume :
    ∀ (now : String) (cbtok : Option String) (body : WebhookBody)
      (store : Store) (r : Record) (st : String),
      cbtok.getD "" ≠ "" →
      get_callback_record store (cbtok.getD "") = some r →
      ¬ isTerminal r.status →
      r.task_token.getD "" ≠ "" →
      body.status = some st →
      (st = "FAILED" ∨ st = "CANCELLED" ∨ st = "TIMED_OUT") →
      (handler now .ok cbtok body store).resumes =
        [.taskFailure (r.task_token.getD "") ("RunPod" ++ removeUnderscores st)
          (body.error.getD ("RunPod job " ++ st))] ∧
      (handler now .ok cbtok body store).writes =
        [⟨cbtok.getD "", "FAILED",
          some (.failed (body.id.getD "unknown") st (body.error.getD ("RunPod job " ++ st)))⟩] ∧
      get_callback_record (handler now .ok cbtok body store).store (cbtok.getD "") =
        some (applyCompleted now "FAILED"
          (some (.failed (body.id.getD "unknown") st (body.error.getD ("RunPod job " ++ st)))) r) ∧
      (applyCompleted now "FAILED"
        (some (.failed (body.id.getD "unknown") st (body.error.getD ("RunPod job " ++ st)))) r).status
        = some "FAILED" ∧
      (handler now .ok cbtok body store).response =
        ⟨200, .processed (body.id.getD "unknown") st⟩ := by
  intro now cbtok body store r st hne hrec hterm htt hstat hst
  rcases hst with rfl | rfl | rfl <;>
  · have hs : (handler now .ok cbtok body store).store =
        update_callback_completed now store (cbtok.getD "") "FAILED"
          (some (.failed (body.id.getD "unknown") (body.status.getD "UNKNOWN")
            (body.error.getD ("RunPod job " ++ body.status.getD "UNKNOWN")))) := by
      simp [handler, hne, hrec, hterm, htt, hstat]
    refine ⟨by simp [handler, hne, hrec, hterm, htt, hstat],
            by simp [handler, hne, hrec, hterm, htt, hstat],
            ?_, rfl,
            by simp [handler, hne, hrec, hterm, htt, hstat]⟩
    rw [hs, hstat]
    exact get_update_self now store _ "FAILED" _ r hrec

/-- Concrete instantiation of the C3 theorem: a `FAILED` webhook with error
`GPU OOM` against the pending fixture. -/
theorem webhook_pending_failure_resume_witness :
    (handler "t1" .ok (some "tok1") bodyFailed storePending).resumes =
      [.taskFailure "tt1" "RunPodFAILED" "GPU OOM"] ∧
    (handler "t1" .ok (some "tok1") bodyFailed storePending).response =
      ⟨200, .processed "j1" "FAILED"⟩ := by
  have h := webhook_pending_failure_resume "t1" (some "tok1") bodyFailed
    storePending recPending "FAILED" (by decide) (by decide) (by decide) (by decide)
    (by decide) (Or.inl rfl)
  refine ⟨?_, h.2.2.2.2⟩
  rw [h.1]
  decide

/-- Claim C4: against a pending record with a recognized external status,
when the workflow engine rejects the resume because the task token is no
longer valid for resumption (`TaskTimedOut`: expired or already consumed),
the handler still marks the record terminal — `COMPLETED` on the
success-status path — and responds 410 without resuming. -/
theorem webhook_stale_token_marks_terminal :
    ∀ (now : String) (cbtok : Option String) (body : WebhookBody)
      (store : Store) (r : Record) (st : String),
      cbtok.getD "" ≠ "" →
      get_callback_record store (cbtok.getD "") = some r →
      ¬ isTerminal r.status →
      r.task_token.getD "" ≠ "" →
      body.status = some st →
      (st = "COMPLETED" ∨ st = "FAILED" ∨ st = "CANCELLED" ∨ st = "TIMED_OUT") →
      (handler now .taskTimedOut cbtok body store).response.statusCode = 410 ∧
      (handler now .taskTimedOut cbtok body store).resumes = [] ∧
      ∃ r', get_callback_record (handler now .taskTimedOut cbtok body store).store
          (cbtok.getD "") = some r' ∧
        isTerminal r'.status ∧
        (st = "COMPLETED" → r'.status = some "COMPLETED") := by
  intro now cbtok body store r st hne hrec hterm htt hstat hst
  rcases hst with rfl | rfl | rfl | rfl
  · have hs : (handler now .taskTimedOut cbtok body store).store =
        update_callback_completed now store (cbtok.getD "") "COMPLETED"
          (some (.tokenError "Task token expired" (body.id.getD "unknown"))) := by
      simp [handler, hne, hrec, hterm, htt, hstat]
    refine ⟨by simp [handler, hne, hrec, hterm, htt, hstat],
            by simp [handler, hne, hrec, hterm, htt, hstat],
            applyCompleted now "COMPLETED"
              (some (.tokenError "Task token expired" (body.id.getD "unknown"))) r,
            ?_, Or.inl rfl, fun _ => rfl⟩
    rw [hs]
    exact get_update_self now store _ "COMPLETED" _ r hrec
  all_goals
  · have hs : (handler now .taskTimedOut cbtok body store).store =
        update_callback_completed now store (cbtok.getD "") "FAILED"
          (some (.tokenError "Task token expired" (body.id.getD "unknown"))) := by
      simp [handler, hne, hrec, hterm, htt, hstat]
    refine ⟨by simp [handler, hne, hrec, hterm, htt, hstat],
            by simp [handler, hne, hrec, hterm, htt, hstat],
            applyCompleted now "FAILED"
              (some (.tokenError "Task token expired" (body.id.getD "unknown"))) r,
            ?_, Or.inr rfl, by intro h; exact absurd h (by decide)⟩
    rw [hs]
    exact get_update_self now store _ "FAILED" _ r hrec

/-- Concrete instantiation of the C4 theorem: stale token on the success
path leaves the record `COMPLETED` and answers 410. -/
theorem webhook_stale_token_marks_terminal_witness :
    (handler "t1" .taskTimedOut (some "tok1") bodyCompleted storePending).response.statusCode
      = 410 ∧
    (handler "t1" .taskTimedOut (some "tok1") bodyCompleted storePending).resumes = [] ∧
    ∃ r', get_callback_record
        (handler "t1" .taskTimedOut (some "tok1") bodyCompleted storePending).store "tok1"
        = some r' ∧ isTerminal r'.status ∧
      ("COMPLETED" = "COMPLETED" → r'.status = some "COMPLETED") :=
  webhook_stale_token_marks_terminal "t1" (some "tok1") bodyCompleted storePending
    recPending "COMPLETED" (by decide) (by decide) (by decide) (by decide) (by decide)
    (Or.inl rfl)

/-- Claim C7: under sequential execution every invocation preserves status
monotonicity — a terminal record is returned unchanged by any invocation,
and a record can only change from a non-terminal status to a terminal one. -/
theorem webhook_status_monotonic :
    ∀ (now : String) (sfn : SfnOutcome) (cbtok : Option String) (body : WebhookBody)
      (store : Store) (t : String) (r : Record),
      get_callback_record store t = some r →
      (isTerminal r.status →
        get_callback_record (handler now sfn cbtok body store).store t = some r) ∧
      (get_callback_record (handler now sfn cbtok body store).store t = some r ∨
        (¬ isTerminal r.status ∧ ∃ r',
          get_callback_record (handler now sfn cbtok body store).store t = some r' ∧
          isTerminal r'.status)) := by
  intro now sfn cbtok body store t r hget
  rcases handler_cases now sfn cbtok body store with
    ⟨hs, _⟩ | ⟨st, res, r0, hst, hrec, hnterm, _, hs⟩
  · rw [hs]; exact ⟨fun _ => hget, Or.inl hget⟩
  · by_cases ht : t = cbtok.getD ""
    · subst ht
      have hr0 : r0 = r := by rw [hget] at hrec; exact (Option.some.inj hrec).symm
      subst hr0
      constructor
      · intro hterm; exact absurd hterm hnterm
      · right
        refine ⟨hnterm, applyCompleted now st res r0, ?_,
          isTerminal_applyCompleted now st res r0 hst⟩
        rw [hs]
        exact get_update_self now store _ st res r0 hrec
    · have hpre : get_callback_record (handler now sfn cbtok body store).store t =
          get_callback_record store t := by
        rw [hs]; exact get_update_ne now store _ t st res ht
      rw [hpre, hget]
      exact ⟨fun _ => rfl, Or.inl rfl⟩

/-- Concrete instantiation of the C7 theorem: a completed record survives a
further success-webhook invocation unchanged. -/
theorem webhook_status_monotonic_witness :
    get_callback_record
      (handler "t1" .ok (some "tok1") bodyCompleted storeDone).store "tok1" = some recDone :=
  (webhook_status_monotonic "t1" .ok (some "tok1") bodyCompleted storeDone "tok1"
    recDone (by decide)).1 (by decide)

/-- Claim C8: a webhook call without a path token answers 400 and a call
whose token resolves to no record answers 404; in both cases there is no
workflow-resume call and no store write. -/
theorem webhook_missing_or_unknown_token :
    (∀ (now : String) (sfn : SfnOutcome) (cbtok : Option String) (body : WebhookBody)
        (store : Store),
        cbtok.getD "" = "" →
        handler now sfn cbtok body store =
          ⟨⟨400, .errorMsg "Missing callback_token in path"⟩, [], [], store⟩) ∧
    (∀ (now : String) (sfn : SfnOutcome) (cbtok : Option String) (body : WebhookBody)
        (store : Store),
        cbtok.getD "" ≠ "" →
        get_callback_record store (cbtok.getD "") = none →
        handler now sfn cbtok body store =
          ⟨⟨404, .errorMsg "Callback token not found"⟩, [], [], store⟩) := by
  constructor
  · intro now sfn cbtok body store h
    simp [handler, h]
  · intro now sfn cbtok body store h hrec
    simp [handler, h, hrec]

/-- Concrete instantiation of the C8 theorem: absent path parameter, and an
unknown token against the completed-record store. -/
theorem webhook_missing_or_unknown_token_witness :
    handler "t1" .ok none bodyCompleted storeDone =
      ⟨⟨400, .errorMsg "Missing callback_token in path"⟩, [], [], storeDone⟩ ∧
    handler "t1" .ok (some "other") bodyCompleted storeDone =
      ⟨⟨404, .errorMsg "Callback token not found"⟩, [], [], storeDone⟩ :=
  ⟨webhook_missing_or_unknown_token.1 "t1" .ok none bodyCompleted storeDone (by decide),
   webhook_missing_or_unknown_token.2 "t1" .ok (some "other") bodyCompleted storeDone
     (by decide) (by decide)⟩

/-- Claim C10: a webhook call resolving to a non-terminal record that lacks
a (truthy) `task_token` attribute answers 500, resumes nothing, writes
nothing and leaves the store unchanged. -/
theorem webhook_missing_task_token_500 :
    ∀ (now : String) (sfn : SfnOutcome) (cbtok : Option String) (body : WebhookBody)
      (store : Store) (r : Record),
      cbtok.getD "" ≠ "" →
      get_callback_record store (cbtok.getD "") = some r →
      ¬ isTerminal r.status →
      r.task_token.getD "" = "" →
      handler now sfn cbtok body store =
        ⟨⟨500, .errorMsg "Missing task_token in record"⟩, [], [], store⟩ := by
  intro now sfn cbtok body store r hne hrec hterm htt
  simp [handler, hne, hrec, hterm, htt]

/-- Concrete instantiation of the C10 theorem on the token-less pending
record. -/
theorem webhook_missing_task_token_500_witness :
    handler "t1" .ok (some "tok1") bodyCompleted storeNoTaskToken =
      ⟨⟨500, .errorMsg "Missing task_token in record"⟩, [], [], storeNoTaskToken⟩ :=
  webhook_missing_task_token_500 "t1" .ok (some "tok1") bodyCompleted
    storeNoTaskToken recNoTaskToken (by decide) (by decide) (by decide) (by decide)

/-! ### Submission-side helper lemmas and claim theorems -/

theorem byteHex_length (b : Nat) : (byteHex b).length = 2 := rfl

theorem token_hex_length (bytes : List Nat) :
    (token_hex bytes).length = 2 * bytes.length := by
  induction bytes with
  | nil => rfl
  | cons b bs ih =>
      simp [token_hex, String.length_append, byteHex_length, ih]
      omega

/-- The field names `lambda_handler`'s validation errors can carry, each
tied to the emptiness of the event field it names. -/
def missingNamed (e : SubmitEvent) (f : String) : Prop :=
  (f = "task_token" ∧ e.task_token.getD "" = "") ∨
  (f = "exec_id" ∧ e.exec_id.getD "" = "") ∨
  (f = "segment.filename" ∧ (e.segment.getD ⟨none⟩).filename.getD "" = "") ∨
  (f = "input_presigned_url, output_presigned_url" ∧
    (e.input_presigned_url.getD "" = "" ∨ e.output_presigned_url.getD "" = "")) ∨
  (f = "runpod.run_endpoint" ∧ (e.runpod.getD ⟨none⟩).run_endpoint.getD "" = "")

/-- Validation summary of `lambda_handler`: it either stops with a
`missingField` error naming an actually-missing field — issuing no token,
submitting nothing, writing nothing — or every required field is present. -/
theorem lambda_handler_validation (now : Nat) (rnd : List Nat) (webhookBase : String)
    (http : HttpOutcome) (event : SubmitEvent) :
    (∃ f, lambda_handler now rnd webhookBase http event =
        ⟨.error (.missingField f), [], [], []⟩ ∧ missingNamed event f) ∨
    (event.task_token.getD "" ≠ "" ∧ event.exec_id.getD "" ≠ "" ∧
     (event.segment.getD ⟨none⟩).filename.getD "" ≠ "" ∧
     event.input_presigned_url.getD "" ≠ "" ∧
     event.output_presigned_url.getD "" ≠ "" ∧
     (event.runpod.getD ⟨none⟩).run_endpoint.getD "" ≠ "") := by
  by_cases h1 : event.task_token.getD "" = ""
  · exact Or.inl ⟨"task_token", by simp [lambda_handler, h1], Or.inl ⟨rfl, h1⟩⟩
  by_cases h2 : event.exec_id.getD "" = ""
  · exact Or.inl ⟨"exec_id", by simp [lambda_handler, h1, h2],
      Or.inr (Or.inl ⟨rfl, h2⟩)⟩
  by_cases h3 : (event.segment.getD ⟨none⟩).filename.getD "" = ""
  · exact Or.inl ⟨"segment.filename", by simp [lambda_handler, h1, h2, h3],
      Or.inr (Or.inr (Or.inl ⟨rfl, h3⟩))⟩
  by_cases h4 : event.input_presigned_url.getD "" = "" ∨
      event.output_presigned_url.getD "" = ""
  · exact Or.inl ⟨"input_presigned_url, output_presigned_url",
      by simp only [lambda_handler, h1, h2, h3, if_neg, if_pos h4]; simp [h1, h2, h3],
      Or.inr (Or.inr (Or.inr (Or.inl ⟨rfl, h4⟩)))⟩
  by_cases h5 : (event.runpod.getD ⟨none⟩).run_endpoint.getD "" = ""
  · exact Or.inl ⟨"runpod.run_endpoint",
      by simp [lambda_handler, h1, h2, h3, h4, h5],
      Or.inr (Or.inr (Or.inr (Or.inr ⟨rfl, h5⟩)))⟩
  · push_neg at h4
    exact Or.inr ⟨h1, h2, h3, h4.1, h4.2, h5⟩

/-- Claim C5: on an external submission failure (network error or non-2xx)
`lambda_handler` writes no correlation record and, when the request was
actually sent, fails with the error carrying the upstream message; and any
correlation write at all presupposes that the external submission returned
a job id — which then appears in the single written item. -/
theorem submit_no_record_on_external_failure :
    (∀ (now : Nat) (rnd : List Nat) (webhookBase msg : String) (event : SubmitEvent),
        (lambda_handler now rnd webhookBase (.requestError msg) event).puts = [] ∧
        ((lambda_handler now rnd webhookBase (.requestError msg) event).submissions ≠ [] →
          (lambda_handler now rnd webhookBase (.requestError msg) event).result =
            .error (.submitFailed ("Failed to submit RunPod job: " ++ msg)))) ∧
    (∀ (now : Nat) (rnd : List Nat) (webhookBase : String) (http : HttpOutcome)
        (event : SubmitEvent),
        (lambda_handler now rnd webhookBase http event).puts ≠ [] →
        ∃ jid, submit_runpod_job http = .ok jid ∧
          ∃ item, (lambda_handler now rnd webhookBase http event).puts = [item] ∧
            item.job_id = jid) := by
  constructor
  · intro now rnd webhookBase msg event
    rcases lambda_handler_validation now rnd webhookBase (.requestError msg) event with
      ⟨f, heq, _⟩ | ⟨h1, h2, h3, h4, h5, h6⟩
    · rw [heq]
      exact ⟨rfl, by intro h; exact absurd rfl h⟩
    · constructor
      · simp [lambda_handler, h1, h2, h3, h4, h5, h6, submit_runpod_job]
      · intro _
        simp [lambda_handler, h1, h2, h3, h4, h5, h6, submit_runpod_job]
  · intro now rnd webhookBase http event hput
    rcases lambda_handler_validation now rnd webhookBase http event with
      ⟨f, heq, _⟩ | ⟨h1, h2, h3, h4, h5, h6⟩
    · rw [heq] at hput
      exact absurd rfl hput
    · cases hs : submit_runpod_job http with
      | error msg =>
          have : (lambda_handler now rnd webhookBase http event).puts = [] := by
            simp [lambda_handler, h1, h2, h3, h4, h5, h6, hs]
          exact absurd this hput
      | ok jid =>
          refine ⟨jid, rfl, store_callback_mapping now (generate_callback_token rnd)
            (event.task_token.getD "") (event.exec_id.getD "")
            ((event.segment.getD ⟨none⟩).filename.getD "") jid 168, ?_, rfl⟩
          simp [lambda_handler, h1, h2, h3, h4, h5, h6, hs]

/-- Claim C6: with all required fields present, 32 random bytes, and a
successful external submission returning `jid`, `lambda_handler` writes
exactly one `PENDING` correlation item carrying the callback token, task
token, job id, exec id, segment filename, creation time and a seven-day
expiry; the freshly generated token is a 64-character (hence non-empty) hex
string; and the caller gets back the token, job id, webhook URL, segment
filename and exec id. -/
theorem submit_success_creates_pending_record :
    ∀ (now : Nat) (rnd : List Nat) (webhookBase : String) (http : HttpOutcome)
      (event : SubmitEvent) (jid : String),
      event.task_token.getD "" ≠ "" →
      event.exec_id.getD "" ≠ "" →
      (event.segment.getD ⟨none⟩).filename.getD "" ≠ "" →
      event.input_presigned_url.getD "" ≠ "" →
      event.output_presigned_url.getD "" ≠ "" →
      (event.runpod.getD ⟨none⟩).run_endpoint.getD "" ≠ "" →
      rnd.length = 32 →
      submit_runpod_job http = .ok jid →
      (lambda_handler now rnd webhookBase http event).puts =
        [⟨generate_callback_token rnd, event.task_token.getD "", jid,
          event.exec_id.getD "", (event.segment.getD ⟨none⟩).filename.getD "",
          "PENDING", now, now + 168 * 3600, now + 168 * 3600⟩] ∧
      now < now + 168 * 3600 ∧
      (generate_callback_token rnd).length = 64 ∧
      generate_callback_token rnd ≠ "" ∧
      (lambda_handler now rnd webhookBase http event).tokensIssued =
        [generate_callback_token rnd] ∧
      (lambda_handler now rnd webhookBase http event).result =
        .ok ⟨generate_callback_token rnd, jid,
          webhookBase ++ generate_callback_token rnd,
          (event.segment.getD ⟨none⟩).filename.getD "", event.exec_id.getD ""⟩ := by
  intro now rnd webhookBase http event jid h1 h2 h3 h4 h5 h6 hlen hok
  have hL : (generate_callback_token rnd).length = 64 := by
    simp [generate_callback_token, token_hex_length, hlen]
  refine ⟨?_, by omega, hL, ?_, ?_, ?_⟩
  · simp [lambda_handler, h1, h2, h3, h4, h5, h6, hok, store_callback_mapping]
  · intro h
    rw [h] at hL
    simp at hL
  · simp [lambda_handler, h1, h2, h3, h4, h5, h6, hok]
  · simp [lambda_handler, h1, h2, h3, h4, h5, h6, hok]

/-- Claim C9: whenever `task_token`, `exec_id`, the segment filename or the
RunPod endpoint URL is absent or empty, `lambda_handler` stops with a
`missingField` error naming a field that is indeed missing, and issues no
token, sends no submission and writes no record. -/
theorem submit_missing_field_rejected :
    ∀ (now : Nat) (rnd : List Nat) (webhookBase : String) (http : HttpOutcome)
      (event : SubmitEvent),
      (event.task_token.getD "" = "" ∨ event.exec_id.getD "" = "" ∨
       (event.segment.getD ⟨none⟩).filename.getD "" = "" ∨
       (event.runpod.getD ⟨none⟩).run_endpoint.getD "" = "") →
      ∃ f, lambda_handler now rnd webhookBase http event =
          ⟨.error (.missingField f), [], [], []⟩ ∧ missingNamed event f := by
  intro now rnd webhookBase http event hmiss
  rcases lambda_handler_validation now rnd webhookBase http event with
    ⟨f, heq, hnamed⟩ | ⟨h1, h2, h3, _, _, h6⟩
  · exact ⟨f, heq, hnamed⟩
  · rcases hmiss with h | h | h | h
    · exact absurd h h1
    · exact absurd h h2
    · exact absurd h h3
    · exact absurd h h6

/-! ### Submission fixtures and witnesses -/

/-- 32 zero bytes standing in for the token generator's entropy. -/
def rnd32 : List Nat := List.replicate 32 0

/-- A submission event with every required field present. -/
def eventFull : SubmitEvent :=
  { task_token := some "tt1", exec_id := some "e1"
    segment := some ⟨some "seg_0000.mp4"⟩
    input_presigned_url := some "https://in", output_presigned_url := some "https://out"
    runpod := some ⟨some "https://api.runpod.ai/v2/x/run"⟩, params := none }

/-- A submission event lacking `task_token`. -/
def eventNoTaskToken : SubmitEvent :=
  { eventFull with task_token := none }

/-- Concrete instantiation of the C5 theorem: upstream failure `boom`
against the full event writes nothing and surfaces the upstream message,
and the successful run's single item indeed carries the returned job id. -/
theorem submit_no_record_on_external_failure_witness :
    (lambda_handler 1000 rnd32 "https://hook/" (.requestError "boom") eventFull).puts = [] ∧
    (lambda_handler 1000 rnd32 "https://hook/" (.requestError "boom") eventFull).result =
      .error (.submitFailed "Failed to submit RunPod job: boom") ∧
    ∃ jid, submit_runpod_job (.response (some "j1")) = .ok jid ∧
      ∃ item, (lambda_handler 1000 rnd32 "https://hook/" (.response (some "j1")) eventFull).puts
          = [item] ∧ item.job_id = jid := by
  refine ⟨(submit_no_record_on_external_failure.1 1000 rnd32 "https://hook/" "boom" eventFull).1,
    ?_, submit_no_record_on_external_failure.2 1000 rnd32 "https://hook/"
      (.response (some "j1")) eventFull (by decide)⟩
  exact (submit_no_record_on_external_failure.1 1000 rnd32 "https://hook/" "boom" eventFull).2
    (by decide)

/-- Concrete instantiation of the C6 theorem on the full event. -/
theorem submit_success_creates_pending_record_witness :
    (lambda_handler 1000 rnd32 "https://hook/" (.response (some "j1")) eventFull).puts =
      [⟨generate_callback_token rnd32, "tt1", "j1", "e1", "seg_0000.mp4",
        "PENDING", 1000, 1000 + 168 * 3600, 1000 + 168 * 3600⟩] ∧
    (generate_callback_token rnd32).length = 64 ∧
    generate_callback_token rnd32 ≠ "" ∧
    (lambda_handler 1000 rnd32 "https://hook/" (.response (some "j1")) eventFull).result =
      .ok ⟨generate_callback_token rnd32, "j1",
        "https://hook/" ++ generate_callback_token rnd32, "seg_0000.mp4", "e1"⟩ := by
  have h := submit_success_creates_pending_record 1000 rnd32 "https://hook/"
    (.response (some "j1")) eventFull "j1" (by decide) (by decide) (by decide)
    (by decide) (by decide) (by decide) (by decide) (by decide)
  exact ⟨h.1, h.2.2.1, h.2.2.2.1, h.2.2.2.2.2⟩

/-- Concrete instantiation of the C9 theorem: the event lacking
`task_token` is rejected with a `missingField` error and no effects. -/
theorem submit_missing_field_rejected_witness :
    ∃ f, lambda_handler 1000 rnd32 "https://hook/" (.response (some "j1")) eventNoTaskToken =
        ⟨.error (.missingField f), [], [], []⟩ ∧ missingNamed eventNoTaskToken f :=
  submit_missing_field_rejected 1000 rnd32 "https://hook/" (.response (some "j1"))
    eventNoTaskToken (Or.inl (by decide))

end Upscaler
